import Mathlib

/-!
Shallow embedding of the bigcases2 event-processing pipeline:
webhook intake (`bc/subscription/api_views.py`), the subscription matcher,
content gate, fetch-completion resume and per-channel post job
(`bc/subscription/tasks.py`), together with theorems settling the spec's
claims about them.
-/

namespace BigCases

/-- Processing status of a `FilingWebhookEvent`.  The four named values
`SUCCESSFUL`, `FAILED`, `IGNORED`, `WAITING_FOR_DOCUMENT` are the constants
used in `tasks.py`; `NEW` is the initial state of a freshly created record
(spec §4.3, the model module defining the enum is not under `src/`). -/
inductive Status where
  | NEW
  | SUCCESSFUL
  | FAILED
  | IGNORED
  | WAITING_FOR_DOCUMENT
deriving DecidableEq, Repr

/-- One entry of `result["recap_documents"]` in the webhook payload. -/
structure RecapDocument where
  pacer_doc_id : Option String
  description : String
  attachment_number : Option Nat
deriving DecidableEq, Repr

/-- One entry of `data["payload"]["results"]`. -/
structure WebhookResult where
  docket : Option Nat
  description : String
  entry_number : Option Nat
  recap_sequence_number : Nat
  recap_documents : List RecapDocument
deriving DecidableEq, Repr

/-- `data["webhook"]` of the inbound payload. -/
structure WebhookBody where
  event_type : Int
deriving DecidableEq, Repr

/-- `data["payload"]` of the inbound payload. -/
structure PayloadBody where
  results : List WebhookResult
deriving DecidableEq, Repr

/-- The JSON body `data` of the inbound request. -/
structure WebhookData where
  webhook : WebhookBody
  payload : PayloadBody
deriving DecidableEq, Repr

/-- The inbound HTTP request: the `Idempotency-Key` header (absent ↦ `none`)
and the parsed body. -/
structure Request where
  idempotency_key : Option String
  data : WebhookData
deriving DecidableEq, Repr

/-- A `FilingWebhookEvent` record, with the fields written by
`handle_cl_webhook` and read or written by the tasks in `tasks.py`
(the model module itself is not under `src/`; fields are taken from their
uses in `api_views.py` and `tasks.py`). -/
structure FilingWebhookEvent where
  pk : Nat
  docket_id : Option Nat
  pacer_doc_id : Option String
  document_number : Option Nat
  attachment_number : Option Nat
  short_description : String
  long_description : String
  status : Status
  subscription_pk : Option Nat
deriving DecidableEq, Repr

/-- A `Subscription` record, with the fields used in `tasks.py`:
`cl_docket_id` (matcher lookup), `pk` (enqueue argument) and
`name_with_summary` (template argument). -/
structure Subscription where
  pk : Nat
  cl_docket_id : Nat
  name_with_summary : String
deriving DecidableEq, Repr

/-- A broadcast `Channel` (`bc/channels/models.py`): service name, account
data and the `enabled` flag. -/
structure Channel where
  pk : Nat
  service : String
  account : String
  account_id : String
  enabled : Bool
deriving DecidableEq, Repr

/-- A `Post` record as created by `make_post_for_webhook_event` in
`tasks.py` (`bc.channel.models.Post` is not under `src/`; the fields are the
keyword arguments of the `Post.objects.create` call: the filing webhook
event, the channel, the external post id and the rendered text). -/
structure Post where
  filing_webhook_event_pk : Nat
  channel_pk : Nat
  object_id : Nat
  text : String
deriving DecidableEq, Repr

/-- An active sponsorship returned by `get_active_sponsorship`. -/
structure Sponsorship where
  pk : Nat
  watermark_message : String
deriving DecidableEq, Repr

/-- The dictionary returned by `lookup_document_by_doc_id`. -/
structure CLDocument where
  filepath_local : Option String
  page_count : Nat
deriving DecidableEq, Repr

/-- Raw document bytes. -/
abbrev Document := String

/-- A rendered inline image. -/
abbrev Image := String

/-- Thumbnail files. -/
abbrev Files := List String

/-- Python truthiness of an optional string: `None` and `""` are falsy. -/
def pyTruthyOptStr : Option String → Bool
  | none => false
  | some s => !(s = "")

/-- Python truthiness of an optional integer: `None` and `0` are falsy. -/
def pyTruthyOptNat : Option Nat → Bool
  | none => false
  | some n => !(n = 0)

/-- Python truthiness of an optional list: `None` and `[]` are falsy. -/
def pyTruthyFiles : Option Files → Bool
  | none => false
  | some fs => !(fs = [])

/-- The exceptions raised by `handle_cl_webhook`
(`IdempotencyKeyMissing`, `WebhookNotSupported`). -/
inductive WebhookError where
  | IdempotencyKeyMissing
  | WebhookNotSupported
deriving DecidableEq, Repr

/-- A job placed on the `default` queue by the intake view. -/
inductive Job where
  | processFilingWebhookEvent (delaySeconds : Nat) (fwe_pk : Nat)
deriving DecidableEq, Repr

/-- One externally visible side effect of the intake view, in program
order: a `FilingWebhookEvent.objects.create`, a `queue.enqueue_in`, or the
final `cache.set` reserving the idempotency key with a TTL in seconds. -/
inductive Effect where
  | createEvent (e : FilingWebhookEvent)
  | enqueueDelayed (delaySeconds : Nat) (fwe_pk : Nat)
  | reserveKey (key : String) (ttlSeconds : Nat)
deriving DecidableEq, Repr

/-- An HTTP response: status code and optional echoed body. -/
structure HttpResponse where
  status : Nat
  body : Option WebhookData
deriving DecidableEq, Repr

/-- The Django settings the intake view reads. -/
structure Settings where
  webhook_delay_time : Nat
deriving DecidableEq, Repr

/-- The durable state touched by the intake view: the idempotency-key cache
(key ↦ TTL in seconds), the `FilingWebhookEvent` table, the queued jobs and
the next primary key the store will assign. -/
structure IntakeState where
  cache : List (String × Nat)
  events : List FilingWebhookEvent
  jobs : List Job
  next_pk : Nat
deriving DecidableEq, Repr

/-- `cache.get(key)` truthiness: the view only ever stores `True`, so a
present key is truthy. -/
def cacheGet (cache : List (String × Nat)) (key : String) : Bool :=
  (cache.find? (fun p => p.1 = key)).isSome

/-- `cache.set(key, True, ttl)`. -/
def cacheSet (cache : List (String × Nat)) (key : String) (ttl : Nat) :
    List (String × Nat) :=
  (key, ttl) :: cache

/-- The comparison key of `sorted(results, key=lambda d: d["recap_sequence_number"])`. -/
def resultLe (a b : WebhookResult) : Prop :=
  a.recap_sequence_number ≤ b.recap_sequence_number

instance : DecidableRel resultLe := fun a b =>
  inferInstanceAs (Decidable (a.recap_sequence_number ≤ b.recap_sequence_number))

instance : IsTotal WebhookResult resultLe :=
  ⟨fun a b => Nat.le_total a.recap_sequence_number b.recap_sequence_number⟩

instance : IsTrans WebhookResult resultLe :=
  ⟨fun _ _ _ hab hbc => Nat.le_trans hab hbc⟩

/-- The record built by `FilingWebhookEvent.objects.create(...)` for one
attached document of one result, with the store-assigned primary key. -/
def mkFilingEvent (r : WebhookResult) (doc : RecapDocument) (pk : Nat) :
    FilingWebhookEvent :=
  { pk := pk
    docket_id := r.docket
    pacer_doc_id := doc.pacer_doc_id
    document_number := r.entry_number
    attachment_number := doc.attachment_number
    short_description := doc.description
    long_description := r.description
    status := Status.NEW
    subscription_pk := none }

/-- The inner `for doc in result["recap_documents"]` loop: create one event
and enqueue one delayed matcher job per document, threading the next
primary key. -/
def intakeDocsLoop (s : Settings) (r : WebhookResult)
    (docs : List RecapDocument) (pk : Nat) :
    List FilingWebhookEvent × List Job × List Effect × Nat :=
  match docs with
  | [] => ([], [], [], pk)
  | doc :: rest =>
    let e := mkFilingEvent r doc pk
    let next := intakeDocsLoop s r rest (pk + 1)
    (e :: next.1,
     Job.processFilingWebhookEvent s.webhook_delay_time e.pk :: next.2.1,
     Effect.createEvent e ::
       Effect.enqueueDelayed s.webhook_delay_time e.pk :: next.2.2.1,
     next.2.2.2)

/-- The outer `for result in sorted_results` loop. -/
def intakeResultsLoop (s : Settings) (results : List WebhookResult)
    (pk : Nat) : List FilingWebhookEvent × List Job × List Effect × Nat :=
  match results with
  | [] => ([], [], [], pk)
  | r :: rest =>
    let first := intakeDocsLoop s r r.recap_documents pk
    let next := intakeResultsLoop s rest first.2.2.2
    (first.1 ++ next.1, first.2.1 ++ next.2.1,
     first.2.2.1 ++ next.2.2.1, next.2.2.2)

/-- `handle_cl_webhook` (`bc/subscription/api_views.py`): validate the
idempotency key and the event type, short-circuit a replayed key with an
empty 200, otherwise create one `FilingWebhookEvent` per attached document
of each result in ascending `recap_sequence_number` order, enqueue one
delayed matcher job per record, reserve the key for two days, and return
201 echoing the payload.  Raised exceptions are returned as `.error`,
leaving the state unchanged with no effects. -/
def handle_cl_webhook (s : Settings) (req : Request) (st : IntakeState) :
    Except WebhookError HttpResponse × IntakeState × List Effect :=
  match req.idempotency_key with
  | none => (Except.error WebhookError.IdempotencyKeyMissing, st, [])
  | some key =>
    if key = "" then
      (Except.error WebhookError.IdempotencyKeyMissing, st, [])
    else if req.data.webhook.event_type ≠ 1 then
      (Except.error WebhookError.WebhookNotSupported, st, [])
    else if cacheGet st.cache key then
      (Except.ok { status := 200, body := none }, st, [])
    else
      let sorted_results := List.insertionSort resultLe req.data.payload.results
      let loop := intakeResultsLoop s sorted_results st.next_pk
      let st' : IntakeState :=
        { cache := cacheSet st.cache key (60 * 60 * 24 * 2)
          events := st.events ++ loop.1
          jobs := st.jobs ++ loop.2.1
          next_pk := loop.2.2.2 }
      (Except.ok { status := 201, body := some req.data }, st',
       loop.2.2.1 ++ [Effect.reserveKey key (60 * 60 * 24 * 2)])

/-- The exceptions a task can raise: the `AssertionError` for a missing
subscription link, Django's `MultipleObjectsReturned` from `.get`, and
failures of external collaborator calls. -/
inductive TaskError where
  | assertionError
  | multipleObjectsReturned
  | externalFailure (msg : String)
deriving DecidableEq, Repr

/-- A side effect of a task: the `purchase_pdf_by_doc_id` call, the
`log_purchase` ledger entry, or one `queue.enqueue(make_post_for_webhook_event,
channel_pk, subscription_pk, fwe_pk, document, sponsor_text, retry=Retry(max, interval))`
post job. -/
inductive TaskEffect where
  | purchasePdf (doc_id : Nat)
  | logPurchase (sponsorship_pk : Nat) (fwe_pk : Nat) (page_count : Nat)
  | enqueuePost (channel_pk : Nat) (subscription_pk : Nat) (fwe_pk : Nat)
      (document : Option Document) (sponsor_text : Option String)
      (retryMax : Nat) (retryInterval : Nat)
deriving DecidableEq, Repr

/-- The arguments of `template.format(...)` in `make_post_for_webhook_event`. -/
structure TemplateArgs where
  docket : String
  description : String
  doc_num : Option Nat
  pdf_link : String
  docket_link : String

/-- A message template as returned by `get_template_for_channel`: its
`format` renders the message text and an optional inline image, and may
raise. -/
structure Template where
  format : TemplateArgs → Except TaskError (String × Option Image)

/-- The external collaborators and settings the tasks read.  Function
fields model the collaborator calls of `tasks.py` whose modules are not
under `src/`: the `FilingWebhookEvent.description` and `.doc_id` model
properties, the `DO_NOT_POST`/`DO_NOT_PAY` regex searches, the
CourtListener lookup/download/purchase helpers, sponsorship selectors,
template selection, thumbnail and watermark services, the channel API
wrapper's `add_status`, and the `RQ_*` retry settings. -/
structure Env where
  description : FilingWebhookEvent → String
  doc_id : FilingWebhookEvent → Nat
  do_not_post : String → Bool
  do_not_pay : String → Bool
  lookup_document_by_doc_id : Nat → CLDocument
  download_pdf_from_cl : String → Document
  get_active_sponsorship : Option Sponsorship
  channels : List Channel
  cl_pdf_or_pacer_url : FilingWebhookEvent → String
  cl_docket_url : FilingWebhookEvent → String
  get_template_for_channel : String → Option Nat → Except TaskError Template
  get_thumbnails_from_range : Document → String → Except TaskError Files
  add_sponsored_text_to_thumbnails : Files → String → Except TaskError Files
  add_status : Channel → String → Option Image → Option Files →
    Except TaskError Nat
  rq_max_number_of_retries : Nat
  rq_retry_interval : Nat

/-- Modelled from the spec: `bc.channel.selectors.get_enabled_channels` is
not under `src/`.  Per the spec, dispatch targets every enabled `Channel`
and "disabled channels never receive dispatch jobs", so the selector
returns exactly the channels whose `enabled` flag is set. -/
def get_enabled_channels (channels : List Channel) : List Channel :=
  channels.filter (fun c => c.enabled)

/-- `Subscription.objects.get(cl_docket_id=docket_id)`: Django's `.get`
raises `DoesNotExist` on zero matches (caught by the matcher) and
`MultipleObjectsReturned` on more than one. -/
inductive SubscriptionGetOutcome where
  | doesNotExist
  | found (s : Subscription)
  | multiple
deriving DecidableEq, Repr

/-- Evaluate `Subscription.objects.get(cl_docket_id=docket_id)` against the
subscription table. -/
def subscriptionGet (subs : List Subscription) (docket_id : Nat) :
    SubscriptionGetOutcome :=
  match subs.filter (fun s => s.cl_docket_id = docket_id) with
  | [] => SubscriptionGetOutcome.doesNotExist
  | [s] => SubscriptionGetOutcome.found s
  | _ :: _ :: _ => SubscriptionGetOutcome.multiple

/-- `process_filing_webhook_event` (`tasks.py`): no-op when the event
carries no docket id; otherwise look up the subscription for the docket,
marking the event `FAILED` when none exists and attaching the subscription
with status `SUCCESSFUL` when one does. -/
def process_filing_webhook_event (subs : List Subscription)
    (e : FilingWebhookEvent) : Except TaskError FilingWebhookEvent :=
  if !pyTruthyOptNat e.docket_id then Except.ok e
  else
    match subscriptionGet subs (e.docket_id.getD 0) with
    | SubscriptionGetOutcome.doesNotExist =>
      Except.ok { e with status := Status.FAILED }
    | SubscriptionGetOutcome.multiple =>
      Except.error TaskError.multipleObjectsReturned
    | SubscriptionGetOutcome.found s =>
      Except.ok { e with subscription_pk := some s.pk,
                         status := Status.SUCCESSFUL }

/-- The `for channel in get_enabled_channels()` dispatch loop shared by
`check_webhook_before_posting` (which leaves `sponsor_text` at its `None`
default) and `process_fetch_webhook_event`. -/
def dispatchPostJobs (env : Env) (subscription_pk : Nat) (fwe_pk : Nat)
    (document : Option Document) (sponsor_text : Option String) :
    List TaskEffect :=
  (get_enabled_channels env.channels).map (fun c =>
    TaskEffect.enqueuePost c.pk subscription_pk fwe_pk document sponsor_text
      env.rq_max_number_of_retries env.rq_retry_interval)

/-- `check_webhook_before_posting` (`tasks.py`): no-op unless the status is
`SUCCESSFUL`; assert the subscription link; mark junk descriptions
`IGNORED`; download an archived document and dispatch with it; otherwise
either trigger a purchase (active sponsorship, purchasable document id,
description not in the do-not-pay filter) and wait, or dispatch with no
document. -/
def check_webhook_before_posting (env : Env) (e : FilingWebhookEvent) :
    Except TaskError (FilingWebhookEvent × List TaskEffect) :=
  if e.status ≠ Status.SUCCESSFUL then Except.ok (e, [])
  else
    match e.subscription_pk with
    | none => Except.error TaskError.assertionError
    | some subscription_pk =>
      if env.do_not_post (env.description e) then
        Except.ok ({ e with status := Status.IGNORED }, [])
      else
        let cl_document := env.lookup_document_by_doc_id (env.doc_id e)
        if pyTruthyOptStr cl_document.filepath_local then
          let document :=
            env.download_pdf_from_cl (cl_document.filepath_local.getD "")
          Except.ok (e,
            dispatchPostJobs env subscription_pk e.pk (some document) none)
        else
          if env.get_active_sponsorship.isSome &&
              pyTruthyOptStr e.pacer_doc_id &&
              !env.do_not_pay (env.description e) then
            Except.ok ({ e with status := Status.WAITING_FOR_DOCUMENT },
              [TaskEffect.purchasePdf (env.doc_id e)])
          else
            Except.ok (e, dispatchPostJobs env subscription_pk e.pk none none)

/-- `process_fetch_webhook_event` (`tasks.py`): assert the subscription
link, set the status to `SUCCESSFUL`, download the now-archived document,
log a purchase and pick up the watermark message when a sponsorship is
active, and dispatch one post job per enabled channel with the document. -/
def process_fetch_webhook_event (env : Env) (e : FilingWebhookEvent) :
    Except TaskError (FilingWebhookEvent × List TaskEffect) :=
  match e.subscription_pk with
  | none => Except.error TaskError.assertionError
  | some subscription_pk =>
    let e' := { e with status := Status.SUCCESSFUL }
    let cl_document := env.lookup_document_by_doc_id (env.doc_id e)
    let document :=
      env.download_pdf_from_cl (cl_document.filepath_local.getD "")
    let (sponsor_message, ledger_fx) :=
      match env.get_active_sponsorship with
      | none => (none, [])
      | some sp =>
        (some sp.watermark_message,
         [TaskEffect.logPurchase sp.pk e.pk cl_document.page_count])
    Except.ok (e',
      ledger_fx ++
        dispatchPostJobs env subscription_pk e.pk (some document)
          sponsor_message)

/-- The `files` computation of `make_post_for_webhook_event`: when a
document is present, derive thumbnails from a page range depending on
whether the template produced an inline image. -/
def thumbnailsStep (env : Env) (document : Option Document)
    (image : Option Image) : Except TaskError (Option Files) :=
  if pyTruthyOptStr document then
    (env.get_thumbnails_from_range (document.getD "")
        (if image.isSome then "[1,2,3]" else "[1,2,3,4]")).map some
  else
    Except.ok none

/-- The watermark step of `make_post_for_webhook_event`: overlay the
sponsor text when both a sponsor text and thumbnails are present. -/
def watermarkStep (env : Env) (files : Option Files)
    (sponsor_text : Option String) : Except TaskError (Option Files) :=
  if pyTruthyOptStr sponsor_text && pyTruthyFiles files then
    (env.add_sponsored_text_to_thumbnails (files.getD [])
        (sponsor_text.getD "")).map some
  else
    Except.ok files

/-- The body of `make_post_for_webhook_event` up to the `Post` row it
builds: select a template, render the message, derive thumbnails, apply the
watermark, submit via the channel's API wrapper and build the `Post`
record from the returned external post id. -/
def make_post_core (env : Env) (channel : Channel)
    (subscription : Subscription) (e : FilingWebhookEvent)
    (document : Option Document) (sponsor_text : Option String) :
    Except TaskError Post :=
  match env.get_template_for_channel channel.service e.document_number with
  | Except.error err => Except.error err
  | Except.ok template =>
    match template.format
        { docket := subscription.name_with_summary
          description := env.description e
          doc_num := e.document_number
          pdf_link := env.cl_pdf_or_pacer_url e
          docket_link := env.cl_docket_url e } with
    | Except.error err => Except.error err
    | Except.ok (message, image) =>
      match thumbnailsStep env document image with
      | Except.error err => Except.error err
      | Except.ok files₀ =>
        match watermarkStep env files₀ sponsor_text with
        | Except.error err => Except.error err
        | Except.ok files =>
          match env.add_status channel message image files with
          | Except.error err => Except.error err
          | Except.ok api_post_id =>
            Except.ok { filing_webhook_event_pk := e.pk
                        channel_pk := channel.pk
                        object_id := api_post_id
                        text := message }

/-- `make_post_for_webhook_event` (`tasks.py`) as a transition on the
`Post` table: the function body runs under `@transaction.atomic`, so an
exception anywhere rolls the unit back and the table is unchanged, while a
successful run persists exactly the one `Post` row built from the submit
call's external post id. -/
def make_post_for_webhook_event (env : Env) (channel : Channel)
    (subscription : Subscription) (e : FilingWebhookEvent)
    (document : Option Document) (sponsor_text : Option String)
    (posts : List Post) : Except TaskError Post × List Post :=
  match make_post_core env channel subscription e document sponsor_text with
  | Except.error err => (Except.error err, posts)
  | Except.ok post => (Except.ok post, posts ++ [post])

/-- Whether an intake effect is the idempotency-key reservation. -/
def Effect.isReserve : Effect → Bool
  | Effect.reserveKey _ _ => true
  | _ => false

/-- Whether a task effect is a post-job enqueue. -/
def TaskEffect.isPostJob : TaskEffect → Bool
  | TaskEffect.enqueuePost _ _ _ _ _ _ _ => true
  | _ => false

/-- Whether a task effect is a post-job enqueue bound to the given channel. -/
def TaskEffect.isPostJobFor (channel_pk : Nat) : TaskEffect → Bool
  | TaskEffect.enqueuePost c _ _ _ _ _ _ => c = channel_pk
  | _ => false

/-- The `recap_sequence_number` of the result each successively created
`FilingWebhookEvent` comes from: one entry per attached document of each
result, in creation order (mirrors the bind structure of
`intakeResultsLoop`). -/
def eventSeqNums (results : List WebhookResult) : List Nat :=
  results.flatMap (fun r =>
    r.recap_documents.map (fun _ => r.recap_sequence_number))

/- Concrete fixtures used by witnesses and counterexamples. -/

/-- A template whose `format` always renders a fixed text-only message. -/
def tmplFix : Template := { format := fun _ => Except.ok ("msg", none) }

/-- A concrete enabled channel. -/
def chFix : Channel :=
  { pk := 1, service := "twitter", account := "a", account_id := "i",
    enabled := true }

/-- A concrete environment in which every collaborator call succeeds:
no junk filters match, the document is archived, no sponsorship is active,
one enabled channel, and the channel API returns post id `99`. -/
def envFix : Env :=
  { description := fun e => e.short_description
    doc_id := fun e => e.pk
    do_not_post := fun _ => false
    do_not_pay := fun _ => false
    lookup_document_by_doc_id := fun _ =>
      { filepath_local := some "p.pdf", page_count := 2 }
    download_pdf_from_cl := fun p => "bytes:" ++ p
    get_active_sponsorship := none
    channels := [chFix]
    cl_pdf_or_pacer_url := fun _ => "pdfurl"
    cl_docket_url := fun _ => "docketurl"
    get_template_for_channel := fun _ _ => Except.ok tmplFix
    get_thumbnails_from_range := fun _ _ => Except.ok ["t1"]
    add_sponsored_text_to_thumbnails := fun fs _ => Except.ok fs
    add_status := fun _ _ _ _ => Except.ok 99
    rq_max_number_of_retries := 3
    rq_retry_interval := 60 }

/-- A concrete subscription. -/
def subFix : Subscription :=
  { pk := 3, cl_docket_id := 7, name_with_summary := "A v. B" }

/-- A concrete matched event in state `SUCCESSFUL`. -/
def eSuccessFix : FilingWebhookEvent :=
  { pk := 10, docket_id := some 7, pacer_doc_id := some "pd",
    document_number := some 2, attachment_number := none,
    short_description := "sd", long_description := "ld",
    status := Status.SUCCESSFUL, subscription_pk := some 3 }

/-- A concrete event in the terminal state `FAILED`, still linked to a
subscription. -/
def eFailedFix : FilingWebhookEvent :=
  { pk := 11, docket_id := some 7, pacer_doc_id := some "pd",
    document_number := some 2, attachment_number := none,
    short_description := "sd", long_description := "ld",
    status := Status.FAILED, subscription_pk := some 3 }

/-- A concrete freshly created event (status `NEW`) with a docket id. -/
def eNewFix : FilingWebhookEvent :=
  { pk := 12, docket_id := some 7, pacer_doc_id := some "pd",
    document_number := some 2, attachment_number := none,
    short_description := "sd", long_description := "ld",
    status := Status.NEW, subscription_pk := none }

/-- A concrete event carrying no docket id. -/
def eNoDocketFix : FilingWebhookEvent :=
  { pk := 13, docket_id := none, pacer_doc_id := some "pd",
    document_number := some 2, attachment_number := none,
    short_description := "sd", long_description := "ld",
    status := Status.NEW, subscription_pk := none }

/-- The `Post` row the post job creates from `envFix`'s collaborators. -/
def postFix : Post :=
  { filing_webhook_event_pk := 10, channel_pk := 1, object_id := 99,
    text := "msg" }

/-- A concrete valid intake request with one unsorted two-result payload. -/
def reqFix : Request :=
  { idempotency_key := some "k1"
    data :=
      { webhook := { event_type := 1 }
        payload :=
          { results :=
              [{ docket := some 7, description := "L2",
                 entry_number := some 2, recap_sequence_number := 9,
                 recap_documents :=
                   [{ pacer_doc_id := some "p2", description := "S2",
                      attachment_number := none }] },
               { docket := some 7, description := "L1",
                 entry_number := some 1, recap_sequence_number := 5,
                 recap_documents :=
                   [{ pacer_doc_id := some "p1", description := "S1",
                      attachment_number := none },
                    { pacer_doc_id := some "p1b", description := "S1b",
                      attachment_number := some 1 }] }] } } }

/-- A concrete request whose `event_type` is not `1`. -/
def reqBadTypeFix : Request :=
  { idempotency_key := some "k1"
    data := { webhook := { event_type := 2 }
              payload := { results := [] } } }

/-- A concrete request with no idempotency key. -/
def reqNoKeyFix : Request :=
  { idempotency_key := none
    data := { webhook := { event_type := 1 }
              payload := { results := [] } } }

/-- An empty intake state. -/
def stFix : IntakeState := { cache := [], events := [], jobs := [], next_pk := 1 }

/-- An intake state in which the key `"k1"` is already reserved. -/
def stReservedFix : IntakeState :=
  { cache := [("k1", 60 * 60 * 24 * 2)], events := [], jobs := [], next_pk := 1 }

/-- Concrete intake settings. -/
def settingsFix : Settings := { webhook_delay_time := 120 }

/- Helper lemmas. -/

lemma cacheGet_cacheSet (c : List (String × Nat)) (k : String) (t : Nat) :
    cacheGet (cacheSet c k t) k = true := by
  simp [cacheGet, cacheSet]

lemma intakeDocsLoop_no_reserve (s : Settings) (r : WebhookResult)
    (docs : List RecapDocument) (pk : Nat) :
    ∀ f ∈ (intakeDocsLoop s r docs pk).2.2.1, f.isReserve = false := by
  induction docs generalizing pk with
  | nil => simp [intakeDocsLoop]
  | cons doc rest ih =>
    intro f hf
    simp only [intakeDocsLoop, List.mem_cons] at hf
    rcases hf with h | h | h
    · subst h; rfl
    · subst h; rfl
    · exact ih _ f h

lemma intakeResultsLoop_no_reserve (s : Settings)
    (results : List WebhookResult) (pk : Nat) :
    ∀ f ∈ (intakeResultsLoop s results pk).2.2.1, f.isReserve = false := by
  induction results generalizing pk with
  | nil => simp [intakeResultsLoop]
  | cons r rest ih =>
    intro f hf
    simp only [intakeResultsLoop, List.mem_append] at hf
    rcases hf with h | h
    · exact intakeDocsLoop_no_reserve _ _ _ _ f h
    · exact ih _ f h

lemma intakeDocsLoop_length (s : Settings) (r : WebhookResult)
    (docs : List RecapDocument) (pk : Nat) :
    (intakeDocsLoop s r docs pk).1.length = docs.length := by
  induction docs generalizing pk with
  | nil => simp [intakeDocsLoop]
  | cons doc rest ih => simp [intakeDocsLoop, ih]

lemma intakeResultsLoop_length (s : Settings) (results : List WebhookResult)
    (pk : Nat) :
    (intakeResultsLoop s results pk).1.length =
      (results.map (fun r => r.recap_documents.length)).sum := by
  induction results generalizing pk with
  | nil => simp [intakeResultsLoop]
  | cons r rest ih => simp [intakeResultsLoop, intakeDocsLoop_length, ih]

lemma intakeDocsLoop_jobs (s : Settings) (r : WebhookResult)
    (docs : List RecapDocument) (pk : Nat) :
    (intakeDocsLoop s r docs pk).2.1 =
      (intakeDocsLoop s r docs pk).1.map
        (fun e => Job.processFilingWebhookEvent s.webhook_delay_time e.pk) := by
  induction docs generalizing pk with
  | nil => simp [intakeDocsLoop]
  | cons doc rest ih => simp [intakeDocsLoop, ih]

lemma intakeResultsLoop_jobs (s : Settings) (results : List WebhookResult)
    (pk : Nat) :
    (intakeResultsLoop s results pk).2.1 =
      (intakeResultsLoop s results pk).1.map
        (fun e => Job.processFilingWebhookEvent s.webhook_delay_time e.pk) := by
  induction results generalizing pk with
  | nil => simp [intakeResultsLoop]
  | cons r rest ih =>
    simp [intakeResultsLoop, intakeDocsLoop_jobs, ih]

lemma eventSeqNums_length (results : List WebhookResult) :
    (eventSeqNums results).length =
      (results.map (fun r => r.recap_documents.length)).sum := by
  induction results with
  | nil => simp [eventSeqNums]
  | cons r rest ih =>
    rw [eventSeqNums, List.flatMap_cons, List.length_append, List.length_map,
      List.map_cons, List.sum_cons, ← ih]
    rfl

lemma pairwise_le_const_map {α : Type} (k : Nat) (l : List α) :
    List.Pairwise (fun a b => a ≤ b) (l.map (fun _ => k)) := by
  induction l with
  | nil => simp
  | cons x xs ih =>
    rw [List.map_cons, List.pairwise_cons]
    refine ⟨?_, ih⟩
    intro b hb
    rcases List.mem_map.mp hb with ⟨a, _, rfl⟩
    exact le_refl k

lemma mem_eventSeqNums {n : Nat} {results : List WebhookResult}
    (h : n ∈ eventSeqNums results) :
    ∃ r ∈ results, n = r.recap_sequence_number := by
  simp only [eventSeqNums, List.mem_flatMap, List.mem_map] at h
  rcases h with ⟨r, hr, _, _, rfl⟩
  exact ⟨r, hr, rfl⟩

/-- A list of results sorted by `recap_sequence_number` yields a
non-decreasing list of per-created-record sequence numbers. -/
lemma eventSeqNums_pairwise {results : List WebhookResult}
    (h : List.Pairwise resultLe results) :
    List.Pairwise (fun a b => a ≤ b) (eventSeqNums results) := by
  induction results with
  | nil => simp [eventSeqNums]
  | cons r rest ih =>
    rw [eventSeqNums, List.flatMap_cons]
    rcases List.pairwise_cons.mp h with ⟨hhead, htail⟩
    rw [List.pairwise_append]
    refine ⟨pairwise_le_const_map _ _, ih htail, ?_⟩
    intro a ha b hb
    rcases List.mem_map.mp ha with ⟨_, _, rfl⟩
    rcases mem_eventSeqNums (show b ∈ eventSeqNums rest from hb) with
      ⟨r', hr', rfl⟩
    exact hhead r' hr'

/-- Evaluation of `handle_cl_webhook` on a valid request with a fresh
idempotency key. -/
lemma handle_cl_webhook_fresh (s : Settings) (req : Request)
    (st : IntakeState) (key : String) (hk : req.idempotency_key = some key)
    (hk' : key ≠ "") (ht : req.data.webhook.event_type = 1)
    (hfresh : cacheGet st.cache key = false) :
    handle_cl_webhook s req st =
      (Except.ok { status := 201, body := some req.data },
       { cache := cacheSet st.cache key (60 * 60 * 24 * 2)
         events := st.events ++
           (intakeResultsLoop s
             (List.insertionSort resultLe req.data.payload.results)
             st.next_pk).1
         jobs := st.jobs ++
           (intakeResultsLoop s
             (List.insertionSort resultLe req.data.payload.results)
             st.next_pk).2.1
         next_pk :=
           (intakeResultsLoop s
             (List.insertionSort resultLe req.data.payload.results)
             st.next_pk).2.2.2 },
       (intakeResultsLoop s
         (List.insertionSort resultLe req.data.payload.results)
         st.next_pk).2.2.1 ++
         [Effect.reserveKey key (60 * 60 * 24 * 2)]) := by
  simp [handle_cl_webhook, hk, hk', ht, hfresh]

/-- Evaluation of `handle_cl_webhook` on a valid request whose idempotency
key is already reserved. -/
lemma handle_cl_webhook_replay (s : Settings) (req : Request)
    (st : IntakeState) (key : String) (hk : req.idempotency_key = some key)
    (hk' : key ≠ "") (ht : req.data.webhook.event_type = 1)
    (hcached : cacheGet st.cache key = true) :
    handle_cl_webhook s req st =
      (Except.ok { status := 200, body := none }, st, []) := by
  simp [handle_cl_webhook, hk, hk', ht, hcached]

/-- C1: for a valid webhook request (event type 1, non-empty idempotency
key) whose key is fresh, the first call returns HTTP 201 echoing the
payload and appends the created `FilingWebhookEvent` records; its effect
trace ends with the reservation of the key for `60*60*24*2` seconds (two
days) and contains no earlier reservation, so the key is reserved only
after all events are scheduled; a second call with the same key leaves the
state (records, jobs, cache) unchanged, performs no effects, and returns
HTTP 200 with an empty body. -/
theorem intake_first_call_then_replay (s : Settings) (req : Request)
    (st : IntakeState) (key : String) (hk : req.idempotency_key = some key)
    (hk' : key ≠ "") (ht : req.data.webhook.event_type = 1)
    (hfresh : cacheGet st.cache key = false) :
    (handle_cl_webhook s req st).1 =
      Except.ok { status := 201, body := some req.data } ∧
    (handle_cl_webhook s req st).2.1.events =
      st.events ++
        (intakeResultsLoop s
          (List.insertionSort resultLe req.data.payload.results)
          st.next_pk).1 ∧
    (handle_cl_webhook s req st).2.2 =
      (intakeResultsLoop s
        (List.insertionSort resultLe req.data.payload.results)
        st.next_pk).2.2.1 ++
        [Effect.reserveKey key (60 * 60 * 24 * 2)] ∧
    (∀ f ∈ (intakeResultsLoop s
        (List.insertionSort resultLe req.data.payload.results)
        st.next_pk).2.2.1, f.isReserve = false) ∧
    handle_cl_webhook s req (handle_cl_webhook s req st).2.1 =
      (Except.ok { status := 200, body := none },
       (handle_cl_webhook s req st).2.1, []) := by
  have hmain := handle_cl_webhook_fresh s req st key hk hk' ht hfresh
  refine ⟨by rw [hmain], by rw [hmain], by rw [hmain],
    intakeResultsLoop_no_reserve _ _ _, ?_⟩
  rw [hmain]
  exact handle_cl_webhook_replay s req _ key hk hk' ht (cacheGet_cacheSet _ _ _)

/-- Witness for C1 at a concrete request and state. -/
theorem intake_first_call_then_replay_witness :
    (handle_cl_webhook settingsFix reqFix stFix).1 =
      Except.ok { status := 201, body := some reqFix.data } ∧
    handle_cl_webhook settingsFix reqFix
        (handle_cl_webhook settingsFix reqFix stFix).2.1 =
      (Except.ok { status := 200, body := none },
       (handle_cl_webhook settingsFix reqFix stFix).2.1, []) :=
  ⟨(intake_first_call_then_replay settingsFix reqFix stFix "k1" rfl
      (by decide) rfl rfl).1,
   (intake_first_call_then_replay settingsFix reqFix stFix "k1" rfl
      (by decide) rfl rfl).2.2.2.2⟩

/-- C9: a missing or empty idempotency key makes the request fail with
`IdempotencyKeyMissing`, and a present non-empty key with an event type
other than 1 makes it fail with `WebhookNotSupported`; in both cases the
state (records, jobs, idempotency-key cache) is unchanged and no effect is
performed. -/
theorem intake_rejects_invalid_requests (s : Settings) (req : Request)
    (st : IntakeState) :
    ((req.idempotency_key = none ∨ req.idempotency_key = some "") →
      handle_cl_webhook s req st =
        (Except.error WebhookError.IdempotencyKeyMissing, st, [])) ∧
    (∀ key, req.idempotency_key = some key → key ≠ "" →
      req.data.webhook.event_type ≠ 1 →
      handle_cl_webhook s req st =
        (Except.error WebhookError.WebhookNotSupported, st, [])) := by
  constructor
  · rintro (h | h) <;> simp [handle_cl_webhook, h]
  · intro key hk hk' ht
    simp [handle_cl_webhook, hk, hk', ht]

/-- Witness for C9 at concrete invalid requests. -/
theorem intake_rejects_invalid_requests_witness :
    handle_cl_webhook settingsFix reqNoKeyFix stFix =
      (Except.error WebhookError.IdempotencyKeyMissing, stFix, []) ∧
    handle_cl_webhook settingsFix reqBadTypeFix stFix =
      (Except.error WebhookError.WebhookNotSupported, stFix, []) :=
  ⟨(intake_rejects_invalid_requests settingsFix reqNoKeyFix stFix).1
      (Or.inl rfl),
   (intake_rejects_invalid_requests settingsFix reqBadTypeFix stFix).2 "k1"
      rfl (by decide) (by decide)⟩

/-- C10: validation runs before the replay short-circuit: with a non-empty
idempotency key that is already reserved, an event type other than 1 still
fails with `WebhookNotSupported` (not a silent 200), and the empty-body 200
replay response is produced only when the event-type validation passes. -/
theorem validation_precedes_replay_check (s : Settings) (req : Request)
    (st : IntakeState) (key : String) (hk : req.idempotency_key = some key)
    (hk' : key ≠ "") (hcached : cacheGet st.cache key = true) :
    (req.data.webhook.event_type ≠ 1 →
      handle_cl_webhook s req st =
        (Except.error WebhookError.WebhookNotSupported, st, [])) ∧
    (req.data.webhook.event_type = 1 →
      handle_cl_webhook s req st =
        (Except.ok { status := 200, body := none }, st, [])) := by
  constructor
  · intro ht; simp [handle_cl_webhook, hk, hk', ht]
  · intro ht; exact handle_cl_webhook_replay s req st key hk hk' ht hcached

/-- Witness for C10: a replayed key with a bad event type rejects. -/
theorem validation_precedes_replay_check_witness :
    handle_cl_webhook settingsFix reqBadTypeFix stReservedFix =
      (Except.error WebhookError.WebhookNotSupported, stReservedFix, []) :=
  (validation_precedes_replay_check settingsFix reqBadTypeFix stReservedFix
      "k1" rfl (by decide) (by decide)).1 (by decide)

/-- C8: for an accepted webhook payload, exactly one `FilingWebhookEvent`
record is created per attached document of each result (the count of
created records is the total document count of the payload), one delayed
matcher job is scheduled per created record with the configured fixed
delay, and the records are created in non-decreasing
`recap_sequence_number` order across results (the per-record sequence
numbers, one per created record in creation order, are pairwise
non-decreasing). -/
theorem intake_creates_events_in_order (s : Settings) (req : Request)
    (st : IntakeState) (key : String) (hk : req.idempotency_key = some key)
    (hk' : key ≠ "") (ht : req.data.webhook.event_type = 1)
    (hfresh : cacheGet st.cache key = false) :
    (handle_cl_webhook s req st).2.1.events =
      st.events ++
        (intakeResultsLoop s
          (List.insertionSort resultLe req.data.payload.results)
          st.next_pk).1 ∧
    (handle_cl_webhook s req st).2.1.jobs =
      st.jobs ++
        (intakeResultsLoop s
          (List.insertionSort resultLe req.data.payload.results)
          st.next_pk).2.1 ∧
    (intakeResultsLoop s
        (List.insertionSort resultLe req.data.payload.results)
        st.next_pk).1.length =
      (req.data.payload.results.map
        (fun r => r.recap_documents.length)).sum ∧
    (intakeResultsLoop s
        (List.insertionSort resultLe req.data.payload.results)
        st.next_pk).2.1 =
      (intakeResultsLoop s
          (List.insertionSort resultLe req.data.payload.results)
          st.next_pk).1.map
        (fun e => Job.processFilingWebhookEvent s.webhook_delay_time e.pk) ∧
    (eventSeqNums
        (List.insertionSort resultLe req.data.payload.results)).length =
      (intakeResultsLoop s
        (List.insertionSort resultLe req.data.payload.results)
        st.next_pk).1.length ∧
    List.Pairwise (fun a b => a ≤ b)
      (eventSeqNums
        (List.insertionSort resultLe req.data.payload.results)) := by
  have hmain := handle_cl_webhook_fresh s req st key hk hk' ht hfresh
  have hsum :
      ((List.insertionSort resultLe req.data.payload.results).map
        (fun r => r.recap_documents.length)).sum =
      (req.data.payload.results.map
        (fun r => r.recap_documents.length)).sum :=
    ((List.perm_insertionSort resultLe req.data.payload.results).map
      (fun r => r.recap_documents.length)).sum_eq
  refine ⟨by rw [hmain], by rw [hmain], ?_, intakeResultsLoop_jobs _ _ _,
    ?_, ?_⟩
  · rw [intakeResultsLoop_length, hsum]
  · rw [eventSeqNums_length, intakeResultsLoop_length]
  · exact eventSeqNums_pairwise
      (List.sorted_insertionSort resultLe req.data.payload.results)

/-- Witness for C8 at a concrete two-result payload delivered out of
order. -/
theorem intake_creates_events_in_order_witness :
    (intakeResultsLoop settingsFix
        (List.insertionSort resultLe reqFix.data.payload.results)
        stFix.next_pk).1.length =
      (reqFix.data.payload.results.map
        (fun r => r.recap_documents.length)).sum ∧
    List.Pairwise (fun a b => a ≤ b)
      (eventSeqNums
        (List.insertionSort resultLe reqFix.data.payload.results)) :=
  ⟨(intake_creates_events_in_order settingsFix reqFix stFix "k1" rfl
      (by decide) rfl rfl).2.2.1,
   (intake_creates_events_in_order settingsFix reqFix stFix "k1" rfl
      (by decide) rfl rfl).2.2.2.2.2⟩

/-- C2: the subscription matcher leaves an event without a docket id
unchanged; when the docket id is present and no subscription exists for it
the status is set to `FAILED`; when one exists the subscription reference
is attached and the status is set to `SUCCESSFUL`. -/
theorem matcher_state_transitions (subs : List Subscription)
    (e : FilingWebhookEvent) :
    (pyTruthyOptNat e.docket_id = false →
      process_filing_webhook_event subs e = Except.ok e) ∧
    (∀ d, e.docket_id = some d → d ≠ 0 →
      subscriptionGet subs d = SubscriptionGetOutcome.doesNotExist →
      process_filing_webhook_event subs e =
        Except.ok { e with status := Status.FAILED }) ∧
    (∀ d sub, e.docket_id = some d → d ≠ 0 →
      subscriptionGet subs d = SubscriptionGetOutcome.found sub →
      process_filing_webhook_event subs e =
        Except.ok { e with subscription_pk := some sub.pk,
                           status := Status.SUCCESSFUL }) := by
  refine ⟨?_, ?_, ?_⟩
  · intro h; simp [process_filing_webhook_event, h]
  · intro d hd hd0 hsub
    simp [process_filing_webhook_event, hd, hsub, pyTruthyOptNat, hd0]
  · intro d sub hd hd0 hsub
    simp [process_filing_webhook_event, hd, hsub, pyTruthyOptNat, hd0]

/-- Witness for C2: the three matcher outcomes at concrete events and
subscription tables. -/
theorem matcher_state_transitions_witness :
    process_filing_webhook_event [subFix] eNoDocketFix =
      Except.ok eNoDocketFix ∧
    process_filing_webhook_event [] eNewFix =
      Except.ok { eNewFix with status := Status.FAILED } ∧
    process_filing_webhook_event [subFix] eNewFix =
      Except.ok { eNewFix with subscription_pk := some subFix.pk,
                               status := Status.SUCCESSFUL } :=
  ⟨(matcher_state_transitions [subFix] eNoDocketFix).1 rfl,
   (matcher_state_transitions [] eNewFix).2.1 7 rfl (by decide) rfl,
   (matcher_state_transitions [subFix] eNewFix).2.2 7 subFix rfl (by decide)
     rfl⟩

/-- C3: on a `SUCCESSFUL` event with a linked subscription the content gate
evaluates in order: a do-not-post description becomes `IGNORED` with no
effects; an archived document is downloaded and dispatch proceeds with it;
with no archived document, if there is no active sponsorship, or no
purchasable document id, or the description matches the do-not-pay filter,
dispatch proceeds with no document; otherwise a purchase is triggered, the
status becomes `WAITING_FOR_DOCUMENT`, and no post job is scheduled. -/
theorem content_gate_decision_order (env : Env) (e : FilingWebhookEvent)
    (spk : Nat) (h1 : e.status = Status.SUCCESSFUL)
    (h2 : e.subscription_pk = some spk) :
    (env.do_not_post (env.description e) = true →
      check_webhook_before_posting env e =
        Except.ok ({ e with status := Status.IGNORED }, [])) ∧
    (env.do_not_post (env.description e) = false →
      pyTruthyOptStr
        (env.lookup_document_by_doc_id (env.doc_id e)).filepath_local =
        true →
      check_webhook_before_posting env e =
        Except.ok (e,
          dispatchPostJobs env spk e.pk
            (some (env.download_pdf_from_cl
              ((env.lookup_document_by_doc_id
                (env.doc_id e)).filepath_local.getD "")))
            none)) ∧
    (env.do_not_post (env.description e) = false →
      pyTruthyOptStr
        (env.lookup_document_by_doc_id (env.doc_id e)).filepath_local =
        false →
      (env.get_active_sponsorship.isSome = false ∨
       pyTruthyOptStr e.pacer_doc_id = false ∨
       env.do_not_pay (env.description e) = true) →
      check_webhook_before_posting env e =
        Except.ok (e, dispatchPostJobs env spk e.pk none none)) ∧
    (env.do_not_post (env.description e) = false →
      pyTruthyOptStr
        (env.lookup_document_by_doc_id (env.doc_id e)).filepath_local =
        false →
      env.get_active_sponsorship.isSome = true →
      pyTruthyOptStr e.pacer_doc_id = true →
      env.do_not_pay (env.description e) = false →
      check_webhook_before_posting env e =
        Except.ok ({ e with status := Status.WAITING_FOR_DOCUMENT },
          [TaskEffect.purchasePdf (env.doc_id e)])) := by
  refine ⟨?_, ?_, ?_, ?_⟩
  · intro hpost
    simp [check_webhook_before_posting, h1, h2, hpost]
  · intro hpost harch
    simp [check_webhook_before_posting, h1, h2, hpost, harch]
  · intro hpost harch hno
    rcases hno with hno | hno | hno <;>
      simp [check_webhook_before_posting, h1, h2, hpost, harch, hno]
  · intro hpost harch hsp hpd hpay
    simp [check_webhook_before_posting, h1, h2, hpost, harch, hsp, hpd,
      hpay]

/-- Witness for C3: in `envFix` the document is archived, so the gate
dispatches one post job to the single enabled channel with the downloaded
document. -/
theorem content_gate_decision_order_witness :
    check_webhook_before_posting envFix eSuccessFix =
      Except.ok (eSuccessFix,
        [TaskEffect.enqueuePost 1 3 10 (some "bytes:p.pdf") none 3 60]) :=
  (content_gate_decision_order envFix eSuccessFix 3 rfl rfl).2.1 rfl rfl

/-- Counterexample to C6: re-running the fetch-completion stage on an
event already in the terminal state `FAILED` is not a no-op — it rewrites
the status to `SUCCESSFUL` and schedules a post job, because
`process_fetch_webhook_event` performs no terminal-state check. -/
theorem terminal_reprocessing_counterexample :
    eFailedFix.status = Status.FAILED ∧
    process_fetch_webhook_event envFix eFailedFix =
      Except.ok ({ eFailedFix with status := Status.SUCCESSFUL },
        [TaskEffect.enqueuePost 1 3 11 (some "bytes:p.pdf") none 3 60]) :=
  ⟨rfl, rfl⟩

/-- C6 (amended): the content gate is a no-op — it changes no state and
schedules no job — on any event whose status is not `SUCCESSFUL`, in
particular on the terminal states `FAILED` and `IGNORED`; the matcher and
the fetch-completion stage perform no terminal-state check. -/
theorem content_gate_noop_on_terminal (env : Env) (e : FilingWebhookEvent)
    (h : e.status = Status.FAILED ∨ e.status = Status.IGNORED) :
    check_webhook_before_posting env e = Except.ok (e, []) := by
  rcases h with h | h <;> simp [check_webhook_before_posting, h]

/-- Witness for the amended C6: the gate no-ops on a concrete `FAILED`
event. -/
theorem content_gate_noop_on_terminal_witness :
    check_webhook_before_posting envFix eFailedFix =
      Except.ok (eFailedFix, []) :=
  content_gate_noop_on_terminal envFix eFailedFix (Or.inl rfl)

lemma isPostJob_of_isPostJobFor {cpk : Nat} {f : TaskEffect}
    (h : TaskEffect.isPostJobFor cpk f = true) : f.isPostJob = true := by
  cases f with
  | enqueuePost _ _ _ _ _ _ _ => rfl
  | purchasePdf _ => exact absurd h (by simp [TaskEffect.isPostJobFor])
  | logPurchase _ _ _ => exact absurd h (by simp [TaskEffect.isPostJobFor])

/- Evaluation lemmas for the content-gate and fetch-completion stages. -/

lemma check_eval_not_successful (env : Env) (e : FilingWebhookEvent)
    (h1 : e.status ≠ Status.SUCCESSFUL) :
    check_webhook_before_posting env e = Except.ok (e, []) := by
  simp [check_webhook_before_posting, h1]

lemma check_eval_nosub (env : Env) (e : FilingWebhookEvent)
    (h1 : e.status = Status.SUCCESSFUL) (h2 : e.subscription_pk = none) :
    check_webhook_before_posting env e =
      Except.error TaskError.assertionError := by
  simp [check_webhook_before_posting, h1, h2]

lemma check_eval_ignored (env : Env) (e : FilingWebhookEvent) (spk : Nat)
    (h1 : e.status = Status.SUCCESSFUL) (h2 : e.subscription_pk = some spk)
    (hpost : env.do_not_post (env.description e) = true) :
    check_webhook_before_posting env e =
      Except.ok ({ e with status := Status.IGNORED }, []) := by
  simp [check_webhook_before_posting, h1, h2, hpost]

lemma check_eval_archived (env : Env) (e : FilingWebhookEvent) (spk : Nat)
    (h1 : e.status = Status.SUCCESSFUL) (h2 : e.subscription_pk = some spk)
    (hpost : env.do_not_post (env.description e) = false)
    (harch : pyTruthyOptStr
      (env.lookup_document_by_doc_id (env.doc_id e)).filepath_local =
      true) :
    check_webhook_before_posting env e =
      Except.ok (e,
        dispatchPostJobs env spk e.pk
          (some (env.download_pdf_from_cl
            ((env.lookup_document_by_doc_id
              (env.doc_id e)).filepath_local.getD "")))
          none) := by
  simp [check_webhook_before_posting, h1, h2, hpost, harch]

lemma check_eval_purchase (env : Env) (e : FilingWebhookEvent) (spk : Nat)
    (h1 : e.status = Status.SUCCESSFUL) (h2 : e.subscription_pk = some spk)
    (hpost : env.do_not_post (env.description e) = false)
    (harch : pyTruthyOptStr
      (env.lookup_document_by_doc_id (env.doc_id e)).filepath_local =
      false)
    (hcond : (env.get_active_sponsorship.isSome &&
        pyTruthyOptStr e.pacer_doc_id &&
        !env.do_not_pay (env.description e)) = true) :
    check_webhook_before_posting env e =
      Except.ok ({ e with status := Status.WAITING_FOR_DOCUMENT },
        [TaskEffect.purchasePdf (env.doc_id e)]) := by
  simp [check_webhook_before_posting, h1, h2, hpost, harch, hcond]

lemma check_eval_nopurchase (env : Env) (e : FilingWebhookEvent) (spk : Nat)
    (h1 : e.status = Status.SUCCESSFUL) (h2 : e.subscription_pk = some spk)
    (hpost : env.do_not_post (env.description e) = false)
    (harch : pyTruthyOptStr
      (env.lookup_document_by_doc_id (env.doc_id e)).filepath_local =
      false)
    (hcond : (env.get_active_sponsorship.isSome &&
        pyTruthyOptStr e.pacer_doc_id &&
        !env.do_not_pay (env.description e)) = false) :
    check_webhook_before_posting env e =
      Except.ok (e, dispatchPostJobs env spk e.pk none none) := by
  simp [check_webhook_before_posting, h1, h2, hpost, harch, hcond]

lemma fetch_eval_nosponsor (env : Env) (e : FilingWebhookEvent) (spk : Nat)
    (hsub : e.subscription_pk = some spk)
    (hsp : env.get_active_sponsorship = none) :
    process_fetch_webhook_event env e =
      Except.ok ({ e with status := Status.SUCCESSFUL },
        dispatchPostJobs env spk e.pk
          (some (env.download_pdf_from_cl
            ((env.lookup_document_by_doc_id
              (env.doc_id e)).filepath_local.getD "")))
          none) := by
  simp [process_fetch_webhook_event, hsub, hsp]

lemma fetch_eval_sponsor (env : Env) (e : FilingWebhookEvent) (spk : Nat)
    (sp : Sponsorship) (hsub : e.subscription_pk = some spk)
    (hsp : env.get_active_sponsorship = some sp) :
    process_fetch_webhook_event env e =
      Except.ok ({ e with status := Status.SUCCESSFUL },
        TaskEffect.logPurchase sp.pk e.pk
            (env.lookup_document_by_doc_id (env.doc_id e)).page_count ::
          dispatchPostJobs env spk e.pk
            (some (env.download_pdf_from_cl
              ((env.lookup_document_by_doc_id
                (env.doc_id e)).filepath_local.getD "")))
            (some sp.watermark_message)) := by
  simp [process_fetch_webhook_event, hsub, hsp]

lemma countP_pk_enabled (channels : List Channel) (c : Channel)
    (hnd : (channels.map (fun ch => ch.pk)).Nodup) (hc : c ∈ channels) :
    channels.countP (fun ch => decide (ch.pk = c.pk) && ch.enabled) =
      if c.enabled then 1 else 0 := by
  induction channels with
  | nil => cases hc
  | cons h t ih =>
    rw [List.map_cons, List.nodup_cons] at hnd
    obtain ⟨hnotin, hndt⟩ := hnd
    rcases List.mem_cons.mp hc with rfl | hct
    · rw [List.countP_cons]
      have hzero :
          t.countP (fun ch => decide (ch.pk = c.pk) && ch.enabled) = 0 := by
        rw [List.countP_eq_zero]
        intro a ha hpa
        apply hnotin
        have hpk : a.pk = c.pk := by
          simp only [Bool.and_eq_true, decide_eq_true_eq] at hpa
          exact hpa.1
        rw [← hpk]
        exact List.mem_map.mpr ⟨a, ha, rfl⟩
      rw [hzero]
      by_cases he : c.enabled <;> simp [he]
    · rw [List.countP_cons]
      have hph : (decide (h.pk = c.pk) && h.enabled) = false := by
        by_cases hpk : h.pk = c.pk
        · exact absurd (hpk ▸ List.mem_map.mpr ⟨c, hct, rfl⟩) hnotin
        · simp [hpk]
      rw [hph]
      simp [ih hndt hct]

/-- Each channel of the channel table receives exactly one post job from
the dispatch loop when enabled and none when disabled, as long as primary
keys are unique. -/
lemma countP_dispatchPostJobs (env : Env) (spk fpk : Nat)
    (doc : Option Document) (sp : Option String) (c : Channel)
    (hnd : (env.channels.map (fun ch => ch.pk)).Nodup)
    (hc : c ∈ env.channels) :
    (dispatchPostJobs env spk fpk doc sp).countP
      (TaskEffect.isPostJobFor c.pk) = if c.enabled then 1 else 0 := by
  rw [dispatchPostJobs, get_enabled_channels, List.countP_map,
    List.countP_filter]
  exact countP_pk_enabled env.channels c hnd hc

/-- Every successful run of the content gate either performs no post-job
enqueue at all or performs exactly the dispatch loop for some document. -/
lemma check_effects_shape (env : Env) (e e' : FilingWebhookEvent)
    (fx : List TaskEffect)
    (h : check_webhook_before_posting env e = Except.ok (e', fx)) :
    (∀ f ∈ fx, f.isPostJob = false) ∨
    ∃ spk doc, fx = dispatchPostJobs env spk e.pk doc none := by
  by_cases h1 : e.status = Status.SUCCESSFUL
  · cases hsub : e.subscription_pk with
    | none =>
      rw [check_eval_nosub env e h1 hsub] at h
      cases h
    | some spk =>
      by_cases hpost : env.do_not_post (env.description e) = true
      · rw [check_eval_ignored env e spk h1 hsub hpost] at h
        rcases Except.ok.inj h with ⟨rfl, rfl⟩
        exact Or.inl (fun f hf => absurd hf (List.not_mem_nil f))
      · rw [Bool.not_eq_true] at hpost
        by_cases harch : pyTruthyOptStr
            (env.lookup_document_by_doc_id (env.doc_id e)).filepath_local =
            true
        · rw [check_eval_archived env e spk h1 hsub hpost harch] at h
          rcases Except.ok.inj h with ⟨rfl, rfl⟩
          exact Or.inr ⟨spk, _, rfl⟩
        · rw [Bool.not_eq_true] at harch
          by_cases hcond : (env.get_active_sponsorship.isSome &&
              pyTruthyOptStr e.pacer_doc_id &&
              !env.do_not_pay (env.description e)) = true
          · rw [check_eval_purchase env e spk h1 hsub hpost harch hcond]
              at h
            rcases Except.ok.inj h with ⟨rfl, rfl⟩
            refine Or.inl ?_
            intro f hf
            rcases List.mem_singleton.mp hf with rfl
            rfl
          · rw [Bool.not_eq_true] at hcond
            rw [check_eval_nopurchase env e spk h1 hsub hpost harch hcond]
              at h
            rcases Except.ok.inj h with ⟨rfl, rfl⟩
            exact Or.inr ⟨spk, _, rfl⟩
  · rw [check_eval_not_successful env e h1] at h
    rcases Except.ok.inj h with ⟨rfl, rfl⟩
    exact Or.inl (fun f hf => absurd hf (List.not_mem_nil f))

/-- Every successful run of the fetch-completion stage performs the
dispatch loop once, preceded only by non-enqueue ledger effects. -/
lemma fetch_effects_shape (env : Env) (e e' : FilingWebhookEvent)
    (fx : List TaskEffect)
    (h : process_fetch_webhook_event env e = Except.ok (e', fx)) :
    ∃ spk doc sp ledger, (∀ f ∈ ledger, f.isPostJob = false) ∧
      fx = ledger ++ dispatchPostJobs env spk e.pk (some doc) sp := by
  cases hsub : e.subscription_pk with
  | none =>
    simp [process_fetch_webhook_event, hsub] at h
  | some spk =>
    cases hsp : env.get_active_sponsorship with
    | none =>
      rw [fetch_eval_nosponsor env e spk hsub hsp] at h
      rcases Except.ok.inj h with ⟨rfl, rfl⟩
      exact ⟨spk, _, none, [],
        fun f hf => absurd hf (List.not_mem_nil f),
        (List.nil_append _).symm⟩
    | some sp =>
      rw [fetch_eval_sponsor env e spk sp hsub hsp] at h
      rcases Except.ok.inj h with ⟨rfl, rfl⟩
      refine ⟨spk,
        env.download_pdf_from_cl
          ((env.lookup_document_by_doc_id (env.doc_id e)).filepath_local.getD ""),
        some sp.watermark_message,
        [TaskEffect.logPurchase sp.pk e.pk
          (env.lookup_document_by_doc_id (env.doc_id e)).page_count],
        ?_, ?_⟩
      · intro f hf
        rcases List.mem_singleton.mp hf with rfl
        rfl
      · rw [List.singleton_append]

/-- C4: whenever dispatch runs — a successful content-gate run or
fetch-completion run whose effects contain at least one post-job
enqueue — exactly one retryable post job is enqueued for every channel
whose `enabled` flag is set and none for any disabled channel (channel
primary keys assumed unique). -/
theorem dispatch_targets_enabled_channels (env : Env)
    (e e' : FilingWebhookEvent) (fx : List TaskEffect)
    (hnd : (env.channels.map (fun ch => ch.pk)).Nodup)
    (hrun : check_webhook_before_posting env e = Except.ok (e', fx) ∨
            process_fetch_webhook_event env e = Except.ok (e', fx))
    (hdispatch : ∃ f ∈ fx, f.isPostJob = true) :
    ∀ c ∈ env.channels,
      fx.countP (TaskEffect.isPostJobFor c.pk) =
        if c.enabled then 1 else 0 := by
  intro c hc
  rcases hrun with hrun | hrun
  · rcases check_effects_shape env e e' fx hrun with hall | ⟨spk, doc, rfl⟩
    · rcases hdispatch with ⟨f, hf, hpj⟩
      rw [hall f hf] at hpj
      cases hpj
    · exact countP_dispatchPostJobs env spk e.pk doc none c hnd hc
  · rcases fetch_effects_shape env e e' fx hrun with
      ⟨spk, doc, sp, ledger, hled, rfl⟩
    rw [List.countP_append]
    have hzero : ledger.countP (TaskEffect.isPostJobFor c.pk) = 0 := by
      rw [List.countP_eq_zero]
      intro a ha hpa
      have hb := isPostJob_of_isPostJobFor hpa
      rw [hled a ha] at hb
      cases hb
    rw [hzero, countP_dispatchPostJobs env spk e.pk (some doc) sp c hnd hc]
    simp

/-- Witness for C4: the gate run on `envFix` dispatches exactly one job to
the single enabled channel. -/
theorem dispatch_targets_enabled_channels_witness :
    [TaskEffect.enqueuePost 1 3 10 (some "bytes:p.pdf") none 3 60].countP
      (TaskEffect.isPostJobFor chFix.pk) =
      if chFix.enabled then 1 else 0 :=
  dispatch_targets_enabled_channels envFix eSuccessFix eSuccessFix
    [TaskEffect.enqueuePost 1 3 10 (some "bytes:p.pdf") none 3 60]
    (by decide) (Or.inl rfl) (by decide) chFix (by decide)

/-- Decomposition of a successful post-job body: the `Post` it builds
carries the external post id returned by the channel's `add_status` call
and the rendered message text, and links the event and the channel. -/
lemma make_post_core_ok (env : Env) (channel : Channel)
    (subscription : Subscription) (e : FilingWebhookEvent)
    (document : Option Document) (sponsor_text : Option String) (p : Post)
    (h : make_post_core env channel subscription e document sponsor_text =
      Except.ok p) :
    ∃ message image files,
      env.add_status channel message image files = Except.ok p.object_id ∧
      p.text = message ∧ p.filing_webhook_event_pk = e.pk ∧
      p.channel_pk = channel.pk := by
  rw [make_post_core] at h
  split at h
  · cases h
  · split at h
    · cases h
    · split at h
      · cases h
      · split at h
        · cases h
        · split at h
          · cases h
          · rcases Except.ok.inj h with rfl
            exact ⟨_, _, _, by assumption, rfl, rfl, rfl⟩

/-- C7: the post job runs in one atomic unit: when any step of composing
or submitting fails, no `Post` record is persisted (the `Post` table is
returned unchanged); a `Post` record is created exactly when the channel's
submit call returned an external post id, and it carries that id and the
rendered text. -/
theorem post_job_rollback_and_submit_link (env : Env) (channel : Channel)
    (subscription : Subscription) (e : FilingWebhookEvent)
    (document : Option Document) (sponsor_text : Option String)
    (posts : List Post) :
    (∀ err,
      (make_post_for_webhook_event env channel subscription e document
        sponsor_text posts).1 = Except.error err →
      (make_post_for_webhook_event env channel subscription e document
        sponsor_text posts).2 = posts) ∧
    (∀ p,
      (make_post_for_webhook_event env channel subscription e document
        sponsor_text posts).1 = Except.ok p →
      (make_post_for_webhook_event env channel subscription e document
        sponsor_text posts).2 = posts ++ [p] ∧
      ∃ message image files,
        env.add_status channel message image files =
          Except.ok p.object_id ∧
        p.text = message ∧ p.filing_webhook_event_pk = e.pk ∧
        p.channel_pk = channel.pk) := by
  constructor
  · intro err herr
    cases hcore : make_post_core env channel subscription e document
        sponsor_text with
    | error err' => simp [make_post_for_webhook_event, hcore]
    | ok q =>
      simp [make_post_for_webhook_event, hcore] at herr
  · intro p hp
    cases hcore : make_post_core env channel subscription e document
        sponsor_text with
    | error err =>
      simp [make_post_for_webhook_event, hcore] at hp
    | ok q =>
      simp [make_post_for_webhook_event, hcore] at hp
      subst hp
      refine ⟨by simp [make_post_for_webhook_event, hcore], ?_⟩
      exact make_post_core_ok env channel subscription e document
        sponsor_text q hcore

/-- Witness for C7: in `envFix` the submit call returns id `99` and exactly
the corresponding `Post` row is appended. -/
theorem post_job_rollback_and_submit_link_witness :
    (make_post_for_webhook_event envFix chFix subFix eSuccessFix none none
      []).2 = [] ++ [postFix] ∧
    ∃ message image files,
      envFix.add_status chFix message image files =
        Except.ok postFix.object_id ∧
      postFix.text = message ∧
      postFix.filing_webhook_event_pk = eSuccessFix.pk ∧
      postFix.channel_pk = chFix.pk :=
  (post_job_rollback_and_submit_link envFix chFix subFix eSuccessFix none
    none []).2 postFix rfl

/-- Counterexample to C5: the post job performs no existing-`Post` check,
so a second invocation for the same (event, channel) pair that finds the
first invocation's `Post` already persisted still submits and persists a
second `Post` for the pair. -/
theorem post_job_rerun_counterexample :
    make_post_for_webhook_event envFix chFix subFix eSuccessFix none none
      [] = (Except.ok postFix, [postFix]) ∧
    make_post_for_webhook_event envFix chFix subFix eSuccessFix none none
      [postFix] = (Except.ok postFix, [postFix, postFix]) ∧
    List.countP
      (fun q => q.filing_webhook_event_pk = eSuccessFix.pk &&
        q.channel_pk = chFix.pk) [postFix, postFix] = 2 :=
  ⟨rfl, rfl, by decide⟩

/-- C5 (amended): one run of the post job persists at most one new `Post`
for its (event, channel) pair and a failed run persists none, so a job
retried only after failed runs creates at most one `Post` per pair; the
job does not check for an existing `Post`, however, so a re-run after a
successful run creates a second `Post` for the same pair. -/
theorem post_job_persists_at_most_one_post (env : Env) (channel : Channel)
    (subscription : Subscription) (e : FilingWebhookEvent)
    (document : Option Document) (sponsor_text : Option String)
    (posts : List Post) :
    ((∃ err,
      (make_post_for_webhook_event env channel subscription e document
        sponsor_text posts).1 = Except.error err) →
      (make_post_for_webhook_event env channel subscription e document
        sponsor_text posts).2 = posts) ∧
    (∀ p,
      (make_post_for_webhook_event env channel subscription e document
        sponsor_text posts).1 = Except.ok p →
      (make_post_for_webhook_event env channel subscription e document
        sponsor_text posts).2.countP
          (fun q => q.filing_webhook_event_pk = e.pk &&
            q.channel_pk = channel.pk) ≤
        posts.countP
          (fun q => q.filing_webhook_event_pk = e.pk &&
            q.channel_pk = channel.pk) + 1) := by
  constructor
  · rintro ⟨err, herr⟩
    cases hcore : make_post_core env channel subscription e document
        sponsor_text with
    | error err' => simp [make_post_for_webhook_event, hcore]
    | ok q => simp [make_post_for_webhook_event, hcore] at herr
  · intro p hp
    cases hcore : make_post_core env channel subscription e document
        sponsor_text with
    | error err => simp [make_post_for_webhook_event, hcore] at hp
    | ok q =>
      simp [make_post_for_webhook_event, hcore] at hp
      subst hp
      simp only [make_post_for_webhook_event, hcore, List.countP_append]
      have hone : List.countP
          (fun r => r.filing_webhook_event_pk = e.pk &&
            r.channel_pk = channel.pk) [q] ≤ 1 :=
        le_trans (List.countP_le_length _) (by simp)
      omega

/-- Witness for the amended C5: a successful concrete run adds one `Post`
for its pair. -/
theorem post_job_persists_at_most_one_post_witness :
    (make_post_for_webhook_event envFix chFix subFix eSuccessFix none none
      []).2.countP
        (fun q => q.filing_webhook_event_pk = eSuccessFix.pk &&
          q.channel_pk = chFix.pk) ≤
      ([] : List Post).countP
        (fun q => q.filing_webhook_event_pk = eSuccessFix.pk &&
          q.channel_pk = chFix.pk) + 1 :=
  (post_job_persists_at_most_one_post envFix chFix subFix eSuccessFix none
    none []).2 postFix rfl

end BigCases
